import Mathlib

/-!
# khttpclient: the keploy HTTP client interceptor

A shallow embedding of
`vendor/github.com/keploy/go-sdk/integrations/khttpclient/httpClient.go`:
the `ReadCloser` gob wrapper (`MarshalBinary` / `UnmarshalBinary`) and
`Interceptor.RoundTrip`.

Conventions of the embedding.

* A Go pointer that may be nil is an `Option`; `*internal.Context` values are
  addresses into a `Heap`, so that the aliasing between the Interceptor's
  default context and the context injected into the request is kept.
* An `io.ReadCloser` is described by what a full read of it returns.
* Every call that leaves `RoundTrip` (reading a stream, the real transport,
  the replay collaborators, the streaming sink, the codec, the logger) is
  written to a trace, in program order.
* Functions of other packages that the file calls are fields of `Collab`;
  nothing is assumed about what they return. `MockRespFromYaml` and
  `keploy.ProcessDep` are handed the context and may change it; the real
  transport, the streaming sink and the codec are not given the contexts.
-/

namespace Khttpclient

/-! ## Data model -/

/-- A Go `[]byte` seen as a value. A nil slice and an empty slice are both `[]`. -/
abbrev Bytes := List UInt8

/-- A non-nil Go `error`; `Error()` returns `msg`. The nil error is `none`. -/
structure GoError where
  msg : String
deriving DecidableEq, Repr

/-- The conversion `[]byte(s)` of a Go string: its UTF-8 bytes. -/
def stringBytes (s : String) : Bytes := s.toUTF8.data.toList

/-- Modelled from the spec: the type `internal.Mode` and its constants `MODE_OFF`,
`MODE_RECORD`, `MODE_TEST` are declared outside the sources. The spec gives
"`Mode` (enum: OFF, RECORD, TEST)"; the `default:` arm of the switch in
`RoundTrip` handles every further value, collected here under `other`. -/
inductive Mode where
  | MODE_OFF
  | MODE_RECORD
  | MODE_TEST
  | other (tag : String)
deriving DecidableEq, Repr

/-- An `io.ReadCloser` used as a request or response body. -/
inductive Body where
  /-- The sentinel `http.NoBody`. -/
  | noBody
  /-- A live stream: a full read returns `data`, then fails with `fail` or ends. -/
  | stream (data : Bytes) (fail : Option GoError)
  /-- The value `io.NopCloser(bytes.NewBuffer(data))`, positioned at the start. -/
  | nopBuffer (data : Bytes)
deriving DecidableEq, Repr

/-- What `io.ReadAll` / `ioutil.ReadAll` returns on a body: the bytes read and the error. -/
def ReadAll : Body → Bytes × Option GoError
  | .noBody => ([], none)
  | .stream data fail => (data, fail)
  | .nopBuffer data => (data, none)

/-- The type `http.Header` (`map[string][]string`); the nil map is `[]`. -/
abbrev Header := List (String × List String)

/-- The metadata map `map[string]string`. -/
abbrev Meta := List (String × String)

/-- Indexing `m[k]` of a Go map: the zero value when the key is absent. -/
def Meta.get (m : Meta) (k : String) : String := (m.lookup k).getD ""

/-- Address of an `internal.Context`. -/
abbrev CtxPtr := Nat

/-- The fields of `http.Request` that `RoundTrip` reads or writes. `ctx` is the value
stored under the key `internal.KCTX` in `r.Context()`, `URL` is `r.URL.String()`. -/
structure Request where
  Method : String
  ProtoMajor : Int
  ProtoMinor : Int
  URL : String
  Header : Header
  Body : Option Body
  ctx : Option CtxPtr
deriving DecidableEq, Repr

/-- The fields of `http.Response` that `RoundTrip` reads or writes. -/
structure Response where
  StatusCode : Int
  Header : Header
  Body : Option Body
deriving DecidableEq, Repr

/-- The zero value `&http.Response{}`. -/
def Response.zero : Response := ⟨0, [], none⟩

/-- The message `proto.Mock_Object`. -/
structure MockObject where
  /-- The field `Type` (a reserved word here). -/
  Type_ : String
  Data : Bytes
deriving DecidableEq, Repr

/-- The message `proto.HttpReq`. -/
structure HttpReq where
  Method : String
  ProtoMajor : Int
  ProtoMinor : Int
  URL : String
  Header : Header
  BodyData : Bytes
deriving DecidableEq, Repr

/-- The message `proto.HttpResp`. -/
structure HttpResp where
  StatusCode : Int
  Header : Header
  BodyData : Bytes
deriving DecidableEq, Repr

/-- The message `proto.Mock_SpecSchema`. -/
structure MockSpec where
  Metadata : Meta
  Objects : List MockObject
  Req : HttpReq
  Res : HttpResp
deriving DecidableEq, Repr

/-- The message `proto.Mock`: the record of one outbound call. -/
structure Mock where
  Version : String
  Name : String
  Kind : String
  Spec : MockSpec
deriving DecidableEq, Repr

/-- The struct `models.Dependency`. -/
structure Dependency where
  Name : String
  /-- The field `Type` (a reserved word here). -/
  Type_ : String
  Data : List Bytes
  Meta : Meta
deriving DecidableEq, Repr

/-- The fields of `internal.Context` that `RoundTrip` reads or writes. -/
structure Context where
  Mode : Mode
  TestID : String
  FileExport : Bool
  Mock : List Mock
  Deps : List Dependency
deriving DecidableEq, Repr

/-- The contexts the pointers of one call refer to. -/
abbrev Heap := CtxPtr → Context

/-- The struct `keploy.KError`, the carrier of an error for the codec. -/
structure KError where
  Err : Option GoError
deriving DecidableEq, Repr

/-- An element of a `[]interface{}` holding the two outputs of a call. -/
inductive Obj where
  | resp (r : Response)
  | kerr (k : KError)
deriving DecidableEq, Repr

/-- One call leaving `RoundTrip`, in the order the calls are made. -/
inductive Event where
  /-- A full read (`io.ReadAll`) of the body `b`. -/
  | readAll (b : Body)
  /-- A call of `i.log.Error` with this message. -/
  | logError (msg : String)
  /-- A call of `i.core.RoundTrip(r)`. -/
  | coreRoundTrip (r : Request)
  /-- A call of `MockRespFromYaml(kctx, i.log, r, reqBody, meta)`. -/
  | mockRespFromYaml (kctx : CtxPtr) (r : Request) (reqBody : Bytes) (m : Meta)
  /-- A call of `internal.MockId.Unique(id)`. -/
  | unique (id : String)
  /-- A call of `internal.PutMock(r.Context(), internal.MockPath, doc)`. -/
  | putMock (ctx : Option CtxPtr) (doc : Mock)
  /-- The `fmt.Println` after a delivered record. -/
  | println (m : Meta)
  /-- A call of `keploy.Encode(t, res, indx)`. -/
  | encode (t : Obj) (indx : Nat)
  /-- A call of `keploy.ProcessDep(r.Context(), i.log, meta, resp, kerr)`. -/
  | processDep (ctx : Option CtxPtr) (m : Meta) (resp : Response) (kerr : KError)
deriving DecidableEq, Repr

/-- What `MockRespFromYaml` returns, and the contexts as it leaves them. -/
structure YamlResult where
  resp : Option Response
  err : Option GoError
  ok : Bool
  heap : Heap

/-- What `keploy.ProcessDep` returns, the response it decoded into, and the contexts
as it leaves them. -/
structure DepResult where
  mock : Bool
  res : List Obj
  resp : Response
  heap : Heap

/-- The functions and constants of other packages that `RoundTrip` uses. -/
structure Collab where
  /-- The error of `internal.GetState` on a context without a keploy context. -/
  stateErr : GoError
  /-- What `internal.GetModeFromContext` returns on a context without a keploy context. -/
  modeAbsent : Mode
  /-- The constant `string(models.HttpClient)`. -/
  HttpClient : String
  /-- The constant `string(models.V1Beta2)`. -/
  V1Beta2 : String
  /-- The constant `string(models.HTTP)`. -/
  HTTP : String
  /-- The function `mock.GetProtoMap`. -/
  GetProtoMap : Header → Header
  /-- The function `MockRespFromYaml` of this package (declared in another file). -/
  MockRespFromYaml : Heap → CtxPtr → Request → Bytes → Meta → YamlResult
  /-- Whether `internal.GetGrpcClient() != nil`. -/
  grpcClient : Bool
  /-- The method `internal.MockId.Unique`. -/
  Unique : String → Bool
  /-- The function `internal.PutMock`. -/
  PutMock : Option CtxPtr → Mock → Bool
  /-- The function `toGobType` of this package (declared in another file). -/
  toGobType : Option GoError → Response → KError × Response
  /-- The function `keploy.Encode`: the slice `res` after the call, and the error. -/
  Encode : Obj → List Bytes → Nat → List Bytes × Option GoError
  /-- The function `keploy.ProcessDep`. -/
  ProcessDep : Heap → Option CtxPtr → Meta → Response → KError → DepResult

/-- The struct `Interceptor`; the logger is represented by the `logError` events. -/
structure Interceptor where
  core : Request → Option Response × Option GoError
  kctx : Option CtxPtr

/-- How a call of `RoundTrip` ends. -/
inductive Ret where
  /-- The statement `return resp, err`. -/
  | returned (resp : Option Response) (err : Option GoError)
  /-- A run-time panic (the failed type assertion `res[1].(*keploy.KError)`). -/
  | panic
deriving DecidableEq, Repr

/-- The result of one call of `RoundTrip`: how it ends, the contexts after the call and
the calls it made. -/
structure Outcome where
  ret : Ret
  heap : Heap
  trace : List Event

/-! ## Context lookup -/

/-- Modelled from the spec: `internal.GetState` is declared outside the sources. In the
spec it is `ResolveContext(executionScope) → (Context, found)`, which "retrieves a
per-call context if attached"; not found is the non-nil error `c.stateErr`. -/
def GetState (c : Collab) (ctx : Option CtxPtr) : Except GoError CtxPtr :=
  match ctx with
  | some p => .ok p
  | none => .error c.stateErr

/-- Modelled from the spec: `internal.GetModeFromContext` is declared outside the sources.
By "Resolve mode: look up a per-call context" it is the `Mode` of the attached context.
`RoundTrip` calls it only where a context is attached; elsewhere it is `c.modeAbsent`. -/
def GetModeFromContext (c : Collab) (h : Heap) (ctx : Option CtxPtr) : Mode :=
  match ctx with
  | some p => (h p).Mode
  | none => c.modeAbsent

/-! ## Interceptor.RoundTrip -/

/-- The test of lines 112-120: whether the call is passed to the real transport
untouched. -/
def passthrough (c : Collab) (i : Interceptor) (h : Heap) (r : Request) : Bool :=
  match GetState c r.ctx with
  | .error _ =>
    match i.kctx with
    | some p => decide ((h p).Mode = Mode.MODE_OFF)
    | none => false
  | .ok _ => decide (GetModeFromContext c h r.ctx = Mode.MODE_OFF)

/-- Lines 123-132: `reqBody`, the error of the read, and the read made. -/
def readRequestBody (r : Request) : Bytes × Option GoError × List Event :=
  match r.Body with
  | none => ([], none, [])
  | some b => ((ReadAll b).1, (ReadAll b).2, [Event.readAll b])

/-- Lines 133-135: the reset of the request body. -/
def resetRequestBody (r : Request) (reqBody : Bytes) : Request :=
  if r.Body ≠ some Body.noBody then { r with Body := some (Body.nopBuffer reqBody) } else r

/-- The method `setRequestContext`: `context.WithValue(ctx, internal.KCTX, i.kctx)`, seen
through the value it holds under the key `internal.KCTX`. -/
def setRequestContext (i : Interceptor) (_ctx : Option CtxPtr) : Option CtxPtr := i.kctx

/-- Lines 138-141: the context of the Interceptor is put into a request that has none. -/
def injectContext (c : Collab) (i : Interceptor) (r : Request) : Request :=
  match GetState c r.ctx, i.kctx with
  | .error _, some _ => { r with ctx := setRequestContext i r.ctx }
  | _, _ => r

/-- The value of `meta` (lines 154-158). -/
def mkMeta (c : Collab) (r : Request) : Meta :=
  [("name", "Http"), ("type", c.HttpClient), ("operation", r.Method)]

/-- The locals `resp`, `respBody`, `statusCode`, `respHeader` after lines 174-187. -/
structure RespCapture where
  resp : Option Response
  respBody : Bytes
  statusCode : Int
  respHeader : Header
deriving DecidableEq, Repr

/-- Lines 174-187: the capture of the response body, with the calls made. On a failed
read the error is returned. -/
def captureResponse (resp : Option Response) : Except GoError RespCapture × List Event :=
  match resp with
  | none => (.ok ⟨none, [], 0, []⟩, [])
  | some rs =>
    match rs.Body with
    | none =>
      (.ok ⟨some { rs with Body := some (Body.nopBuffer []) }, [], rs.StatusCode, rs.Header⟩, [])
    | some b =>
      match (ReadAll b).2 with
      | some e => (.error e, [Event.readAll b, Event.logError "Unable to read request body"])
      | none =>
        (.ok ⟨some { rs with Body := some (Body.nopBuffer (ReadAll b).1) }, (ReadAll b).1,
            rs.StatusCode, rs.Header⟩, [Event.readAll b])

/-- Lines 189-191: the value of `errStr`. -/
def errStr (err : Option GoError) : String :=
  match err with
  | some e => e.msg
  | none => ""

/-- Lines 192-220: the record `httpMock`. -/
def httpMock (c : Collab) (k : Context) (m : Meta) (r : Request) (reqBody : Bytes)
    (err : Option GoError) (cap : RespCapture) : Mock :=
  { Version := c.V1Beta2
    Name := k.TestID
    Kind := c.HTTP
    Spec :=
      { Metadata := m
        Objects := [{ Type_ := "error", Data := stringBytes (errStr err) }]
        Req :=
          { Method := r.Method
            ProtoMajor := r.ProtoMajor
            ProtoMinor := r.ProtoMinor
            URL := r.URL
            Header := c.GetProtoMap r.Header
            BodyData := reqBody }
        Res :=
          { StatusCode := cap.statusCode
            Header := c.GetProtoMap cap.respHeader
            BodyData := cap.respBody } } }

/-- The condition of line 221, evaluated left to right with short circuit, and the call
of `Unique` when it is reached. -/
def streamingGate (c : Collab) (k : Context) : Bool × List Event :=
  if c.grpcClient && k.FileExport then (c.Unique k.TestID, [Event.unique k.TestID])
  else (false, [])

/-- Lines 237-242: the loop over `outputs`; `err` is assigned at every turn. -/
def encodeLoop (c : Collab) :
    List Obj → Nat → List Bytes → Option GoError → List Bytes × Option GoError × List Event
  | [], _, res, err => (res, err, [])
  | t :: ts, indx, res, _ =>
    let out := c.Encode t res indx
    let logged :=
      if out.2.isSome then [Event.logError "dependency capture failed: failed to encode object"]
      else []
    let rest := encodeLoop c ts (indx + 1) out.1 out.2
    (rest.1, rest.2.1, Event.encode t indx :: logged ++ rest.2.2)

/-- Lines 228-253: the record is kept in the context. -/
def recordInMemory (c : Collab) (h : Heap) (kctx : CtxPtr) (m : Meta) (doc : Mock)
    (resp : Option Response) (err : Option GoError) (tr : List Event) : Outcome :=
  let h1 := Function.update h kctx { h kctx with Mock := (h kctx).Mock ++ [doc] }
  let isRespNil := resp.isNone
  let gob := c.toGobType err (resp.getD Response.zero)
  let outputs := [Obj.resp gob.2, Obj.kerr gob.1]
  let enc := encodeLoop c outputs 0 (List.replicate outputs.length []) err
  let dep : Dependency :=
    { Name := m.get "name", Type_ := m.get "type", Data := enc.1, Meta := m }
  let h2 := Function.update h1 kctx { h1 kctx with Deps := (h1 kctx).Deps ++ [dep] }
  if isRespNil then ⟨Ret.returned none enc.2.1, h2, tr ++ enc.2.2⟩
  else ⟨Ret.returned (some gob.2) enc.2.1, h2, tr ++ enc.2.2⟩

/-- Lines 221-227: the record is handed to the streaming sink. -/
def recordStreaming (c : Collab) (h : Heap) (r : Request) (m : Meta) (doc : Mock)
    (resp : Option Response) (err : Option GoError) (tr : List Event) : Outcome :=
  let recorded := c.PutMock r.ctx doc
  ⟨Ret.returned resp err, h,
    tr ++ [Event.putMock r.ctx doc] ++ (if recorded then [Event.println m] else [])⟩

/-- The arm `case internal.MODE_RECORD` (lines 166-253). -/
def recordMode (c : Collab) (i : Interceptor) (h : Heap) (kctx : CtxPtr) (r : Request)
    (reqBody : Bytes) (m : Meta) (tr : List Event) : Outcome :=
  let out := i.core r
  let tr := tr ++ [Event.coreRoundTrip r]
  match captureResponse out.1 with
  | (.error e, evs) => ⟨Ret.returned none (some e), h, tr ++ evs⟩
  | (.ok cap, evs) =>
    let doc := httpMock c (h kctx) m r reqBody out.2 cap
    let gate := streamingGate c (h kctx)
    if gate.1 then recordStreaming c h r m doc cap.resp out.2 (tr ++ evs ++ gate.2)
    else recordInMemory c h kctx m doc cap.resp out.2 (tr ++ evs ++ gate.2)

/-- Lines 258-272: the statements after the switch. -/
def afterSwitch (c : Collab) (h : Heap) (r : Request) (m : Meta) (err : Option GoError)
    (resp : Response) (isRespNil : Bool) (tr : List Event) : Outcome :=
  let gob := c.toGobType err resp
  let pd := c.ProcessDep h r.ctx m gob.2 gob.1
  let tr := tr ++ [Event.processDep r.ctx m gob.2 gob.1]
  if pd.mock then
    match pd.res[1]? with
    | some (Obj.kerr x) => ⟨Ret.returned (some pd.resp) x.Err, pd.heap, tr⟩
    | _ => ⟨Ret.panic, pd.heap, tr⟩
  else if isRespNil then ⟨Ret.returned none err, pd.heap, tr⟩
  else ⟨Ret.returned (some pd.resp) err, pd.heap, tr⟩

/-- Lines 143-256: the lookup of the context and the switch on its mode. -/
def dispatch (c : Collab) (i : Interceptor) (h : Heap) (r : Request) (reqBody : Bytes)
    (tr : List Event) : Outcome :=
  match GetState c r.ctx with
  | .error er => ⟨Ret.returned none (some er), h, tr⟩
  | .ok kctx =>
    let m := mkMeta c r
    match (h kctx).Mode with
    | Mode.MODE_TEST =>
      let y := c.MockRespFromYaml h kctx r reqBody m
      let tr := tr ++ [Event.mockRespFromYaml kctx r reqBody m]
      if y.ok then ⟨Ret.returned y.resp y.err, y.heap, tr⟩
      else afterSwitch c y.heap r m none Response.zero false tr
    | Mode.MODE_RECORD => recordMode c i h kctx r reqBody m tr
    | _ => ⟨Ret.returned none (some ⟨"integrations: Not in a valid sdk mode"⟩), h, tr⟩

/-- The method `Interceptor.RoundTrip` (lines 107-274) on the request `r`, with the
contexts `h`. -/
def RoundTrip (c : Collab) (i : Interceptor) (h : Heap) (r : Request) : Outcome :=
  if passthrough c i h r then
    ⟨Ret.returned (i.core r).1 (i.core r).2, h, [Event.coreRoundTrip r]⟩
  else
    match readRequestBody r with
    | (_, some e, evs) =>
      ⟨Ret.returned none (some e), h, evs ++ [Event.logError "Unable to read request body"]⟩
    | (reqBody, none, evs) =>
      dispatch c i h (injectContext c i (resetRequestBody r reqBody)) reqBody evs

/-! ## ReadCloser

`UnmarshalBinary` copies its argument, so here byte slices are not values: a slice
is a window on a backing array held in a memory. -/

/-- The backing arrays of the byte slices, by address. -/
abbrev Mem := List Bytes

/-- A non-nil `[]byte`: a window of `len` bytes at offset `off` of the array `arr`. -/
structure Slice where
  arr : Nat
  off : Nat
  len : Nat
deriving DecidableEq, Repr

/-- The bytes a slice shows; the nil slice is `none`. -/
def Mem.read (m : Mem) (s : Option Slice) : Bytes :=
  match s with
  | none => []
  | some s => ((m.getD s.arr []).drop s.off).take s.len

/-- The builtin `len`. -/
def len (s : Option Slice) : Nat :=
  match s with
  | none => 0
  | some s => s.len

/-- The builtin `make([]byte, n)`: a fresh zeroed array and the slice on it. -/
def make (m : Mem) (n : Nat) : Mem × Slice :=
  (m ++ [List.replicate n 0], ⟨m.length, 0, n⟩)

/-- Overwrite the array at address `arr` from position `pos` on with `data`. -/
def Mem.write (m : Mem) (arr pos : Nat) (data : Bytes) : Mem :=
  m.set arr ((m.getD arr []).take pos ++ data ++ (m.getD arr []).drop (pos + data.length))

/-- The builtin `copy(dst, src)`: the first `min (len dst) (len src)` bytes of `src`
are written to the start of `dst`. -/
def copy (m : Mem) (dst : Slice) (src : Option Slice) : Mem :=
  m.write dst.arr dst.off ((m.read src).take dst.len)

/-- The assignment `b[k] = v` on a slice (a run-time panic, here no change, when `k` is
out of range or the slice nil). -/
def Mem.setIndex (m : Mem) (b : Option Slice) (k : Nat) (v : UInt8) : Mem :=
  match b with
  | none => m
  | some s => if k < s.len then m.write s.arr (s.off + k) [v] else m

/-- The struct `bytes.Reader`: the slice read and the reading index. -/
structure BytesReader where
  s : Option Slice
  i : Nat
deriving DecidableEq, Repr

/-- The function `bytes.NewReader`. -/
def NewReader (b : Option Slice) : BytesReader := ⟨b, 0⟩

/-- The struct `ReadCloser`: the embedded `*bytes.Reader` and the field `Body`. -/
structure ReadCloser where
  Reader : Option BytesReader
  Body : Option Body
deriving DecidableEq, Repr

/-- A full read of a `ReadCloser`. Its `Read` is the method of the embedded
`*bytes.Reader`: the bytes from the reading index on; with a nil `Reader` the call
panics (`none`). -/
def ReadCloser.readAll (m : Mem) (rc : ReadCloser) : Option Bytes :=
  rc.Reader.map (fun rd => (m.read rd.s).drop rd.i)

/-- A body after a full read and `Close`: nothing is left to read. -/
def Body.drained : Body → Body
  | .noBody => .noBody
  | .stream _ fail => .stream [] fail
  | .nopBuffer _ => .nopBuffer []

/-- The method `(*ReadCloser).UnmarshalBinary` (lines 38-45): the memory and the
receiver after the call, and the error returned. -/
def UnmarshalBinary (m : Mem) (rc : ReadCloser) (b : Option Slice) :
    Mem × ReadCloser × Option GoError :=
  let mk := make m (len b)
  let copyByteArr := mk.2
  let m2 := copy mk.1 copyByteArr b
  (m2, { rc with Reader := some (NewReader (some copyByteArr)) }, none)

/-- The method `(*ReadCloser).MarshalBinary` (lines 47-55): the memory and the receiver
after the call, the bytes and the error returned. `ioutil.ReadAll` returns the bytes
read in a fresh array. -/
def MarshalBinary (m : Mem) (rc : ReadCloser) :
    Mem × ReadCloser × Option Slice × Option GoError :=
  match rc.Body with
  | some body =>
    let b : Slice := ⟨m.length, 0, (ReadAll body).1.length⟩
    (m ++ [(ReadAll body).1],
      { Reader := some (NewReader (some b)), Body := some body.drained },
      some b, (ReadAll body).2)
  | none => (m, rc, none, none)

/-! ## Vocabulary of the statements -/

/-- The request as `RoundTrip` passes it on after lines 122-141: body captured and reset,
context injected. -/
def forwarded (c : Collab) (i : Interceptor) (r : Request) : Request :=
  injectContext c i (resetRequestBody r (readRequestBody r).1)

/-- The error `errors.New("integrations: Not in a valid sdk mode")`. -/
def invalidModeErr : GoError := ⟨"integrations: Not in a valid sdk mode"⟩

/-- The records handed to the streaming sink by the calls of a trace. -/
def sunk : List Event → List Mock
  | [] => []
  | Event.putMock _ doc :: tr => doc :: sunk tr
  | _ :: tr => sunk tr

/-- The full reads of body streams among the calls of a trace. -/
def reads : List Event → List Body
  | [] => []
  | Event.readAll b :: tr => b :: reads tr
  | _ :: tr => reads tr

/-- The requests given to the real transport by the calls of a trace. -/
def coreCalls : List Event → List Request
  | [] => []
  | Event.coreRoundTrip r :: tr => r :: coreCalls tr
  | _ :: tr => coreCalls tr

/-- The records a call created: those it handed to the streaming sink, then those it
appended to the record list of the context at `p`. -/
def created (h : Heap) (p : CtxPtr) (o : Outcome) : List Mock :=
  sunk o.trace ++ (o.heap p).Mock.drop (h p).Mock.length

/-- The record built in RECORD mode from the request `r` and the captured response. -/
def recordOf (c : Collab) (i : Interceptor) (h : Heap) (r : Request) (p : CtxPtr)
    (cap : RespCapture) : Mock :=
  httpMock c (h p) (mkMeta c (forwarded c i r)) (forwarded c i r) (readRequestBody r).1
    (i.core (forwarded c i r)).2 cap

/-! ## Concrete collaborators for the examples -/

/-- Collaborators that never find a recorded response, have no streaming sink, and whose
codec always succeeds. -/
def quiet : Collab :=
  { stateErr := ⟨"failed to get Keploy context"⟩
    modeAbsent := Mode.MODE_OFF
    HttpClient := "HTTP_CLIENT"
    V1Beta2 := "api.keploy.io/v1beta2"
    HTTP := "Http"
    GetProtoMap := fun hd => hd
    MockRespFromYaml := fun h _ _ _ _ => ⟨none, none, false, h⟩
    grpcClient := false
    Unique := fun _ => true
    PutMock := fun _ _ => false
    toGobType := fun e r => (⟨e⟩, r)
    Encode := fun _ res _ => (res, none)
    ProcessDep := fun h _ _ r _ => ⟨false, [], r, h⟩ }

/-- The collaborators `quiet` with a codec that fails on every value. -/
def codecDown : Collab :=
  { quiet with Encode := fun _ res _ => (res, some ⟨"gob: type not registered"⟩) }

/-- The collaborators `quiet` with a streaming sink that is attempted and reports
`delivered = false`. -/
def sinkDown : Collab := { quiet with grpcClient := true }

/-- Contexts all in mode `m`, test identifier `t1`, with empty record lists. -/
def heapOf (m : Mode) (fileExport : Bool) : Heap := fun _ => ⟨m, "t1", fileExport, [], []⟩

/-- The request `GET /status` without a body, carrying the context at address 0. -/
def getStatus : Request := ⟨"GET", 1, 1, "http://svc/status", [], none, some 0⟩

/-- A transport answering status 200, header `X-Test: 1`, body `ok`. -/
def okCore : Interceptor :=
  ⟨fun _ => (some ⟨200, [("X-Test", ["1"])], some (Body.stream [111, 107] none)⟩, none), none⟩

/-- A transport whose response body breaks while it is read. -/
def brokenBodyCore : Interceptor :=
  ⟨fun _ => (some ⟨200, [], some (Body.stream [111] (some ⟨"unexpected EOF"⟩))⟩, none), none⟩

/-- A transport answering status 204 with a nil body. -/
def nilBodyCore : Interceptor := ⟨fun _ => (some ⟨204, [], none⟩, none), none⟩

/-- A transport failing with an error whose text is empty. -/
def emptyErrCore : Interceptor := ⟨fun _ => (none, some ⟨""⟩), none⟩

/-- The locals after the capture of the response of `okCore`. -/
def okCapture : RespCapture :=
  ⟨some ⟨200, [("X-Test", ["1"])], some (Body.nopBuffer [111, 107])⟩, [111, 107], 200,
    [("X-Test", ["1"])]⟩

/-- A transport failing with `connection refused` and no response. -/
def refusedCore : Interceptor := ⟨fun _ => (none, some ⟨"connection refused"⟩), none⟩

/-! ## Auxiliary facts -/

theorem utf8EncodeChar_ne_nil (ch : Char) : String.utf8EncodeChar ch ≠ [] := by
  intro hnil
  have hlen := String.length_utf8EncodeChar ch
  have hpos := Char.utf8Size_pos ch
  rw [hnil] at hlen
  simp at hlen
  omega

theorem stringBytes_eq_nil (s : String) : stringBytes s = [] ↔ s = "" := by
  cases s with
  | mk l =>
    cases l with
    | nil => constructor <;> intro _ <;> rfl
    | cons ch cs =>
      constructor
      · intro hb
        simp [stringBytes, String.toUTF8, utf8EncodeChar_ne_nil] at hb
      · intro hs
        have hd := congrArg String.data hs
        simp at hd

theorem passthrough_off (c : Collab) (i : Interceptor) (h : Heap) (r : Request) (p : CtxPtr)
    (hres : r.ctx = some p ∨ (r.ctx = none ∧ i.kctx = some p))
    (hoff : (h p).Mode = Mode.MODE_OFF) : passthrough c i h r = true := by
  rcases hres with hr | ⟨hr, hi⟩
  · simp [passthrough, GetState, GetModeFromContext, hr, hoff]
  · simp [passthrough, GetState, hr, hi, hoff]

theorem passthrough_not_off (c : Collab) (i : Interceptor) (h : Heap) (r : Request) (p : CtxPtr)
    (hres : r.ctx = some p ∨ (r.ctx = none ∧ i.kctx = some p))
    (hoff : (h p).Mode ≠ Mode.MODE_OFF) : passthrough c i h r = false := by
  rcases hres with hr | ⟨hr, hi⟩
  · simp [passthrough, GetState, GetModeFromContext, hr, hoff]
  · simp [passthrough, GetState, hr, hi, hoff]

theorem resetRequestBody_ctx (r : Request) (a : Bytes) : (resetRequestBody r a).ctx = r.ctx := by
  unfold resetRequestBody
  split <;> rfl

theorem injectContext_ctx (c : Collab) (i : Interceptor) (r : Request) (p : CtxPtr)
    (hres : r.ctx = some p ∨ (r.ctx = none ∧ i.kctx = some p)) :
    (injectContext c i r).ctx = some p := by
  rcases hres with hr | ⟨hr, hi⟩
  · simp [injectContext, GetState, hr]
  · simp [injectContext, setRequestContext, GetState, hr, hi]

theorem forwarded_ctx (c : Collab) (i : Interceptor) (r : Request) (p : CtxPtr)
    (hres : r.ctx = some p ∨ (r.ctx = none ∧ i.kctx = some p)) :
    (forwarded c i r).ctx = some p := by
  unfold forwarded
  apply injectContext_ctx
  rw [resetRequestBody_ctx]
  exact hres

/-- When the call is not passed through and the request body is read without error,
`RoundTrip` is the switch on the forwarded request. -/
theorem RoundTrip_eq_dispatch (c : Collab) (i : Interceptor) (h : Heap) (r : Request)
    (hp : passthrough c i h r = false) (hread : (readRequestBody r).2.1 = none) :
    RoundTrip c i h r =
      dispatch c i h (forwarded c i r) (readRequestBody r).1 (readRequestBody r).2.2 := by
  unfold RoundTrip forwarded
  rcases hrb : readRequestBody r with ⟨a, e, evs⟩
  rw [hrb] at hread
  simp at hread
  subst hread
  simp [hp]

/-- When the read of the request body fails, its error is returned. -/
theorem RoundTrip_read_error (c : Collab) (i : Interceptor) (h : Heap) (r : Request)
    (e : GoError) (hp : passthrough c i h r = false) (hread : (readRequestBody r).2.1 = some e) :
    RoundTrip c i h r =
      ⟨Ret.returned none (some e), h,
        (readRequestBody r).2.2 ++ [Event.logError "Unable to read request body"]⟩ := by
  unfold RoundTrip
  rcases hrb : readRequestBody r with ⟨a, e2, evs⟩
  rw [hrb] at hread
  simp at hread
  subst hread
  simp [hp]

theorem coreCalls_append (xs ys : List Event) : coreCalls (xs ++ ys) = coreCalls xs ++ coreCalls ys := by
  induction xs with
  | nil => rfl
  | cons x xs ih => cases x <;> simp [coreCalls, ih]

theorem sunk_append (xs ys : List Event) : sunk (xs ++ ys) = sunk xs ++ sunk ys := by
  induction xs with
  | nil => rfl
  | cons x xs ih => cases x <;> simp [sunk, ih]

theorem reads_append (xs ys : List Event) : reads (xs ++ ys) = reads xs ++ reads ys := by
  induction xs with
  | nil => rfl
  | cons x xs ih => cases x <;> simp [reads, ih]

theorem coreCalls_readRequestBody (r : Request) : coreCalls (readRequestBody r).2.2 = [] := by
  unfold readRequestBody
  cases r.Body <;> simp [coreCalls]

theorem sunk_readRequestBody (r : Request) : sunk (readRequestBody r).2.2 = [] := by
  unfold readRequestBody
  cases r.Body <;> simp [sunk]

theorem reads_readRequestBody (r : Request) :
    reads (readRequestBody r).2.2 = r.Body.toList := by
  unfold readRequestBody
  cases r.Body <;> simp [reads]

theorem sunk_encodeLoop (c : Collab) (ts : List Obj) (n : Nat) (res : List Bytes)
    (err : Option GoError) : sunk (encodeLoop c ts n res err).2.2 = [] := by
  induction ts generalizing n res err with
  | nil => rfl
  | cons t ts ih =>
    simp only [encodeLoop]
    split <;> simp [sunk, sunk_append, ih]

theorem reads_encodeLoop (c : Collab) (ts : List Obj) (n : Nat) (res : List Bytes)
    (err : Option GoError) : reads (encodeLoop c ts n res err).2.2 = [] := by
  induction ts generalizing n res err with
  | nil => rfl
  | cons t ts ih =>
    simp only [encodeLoop]
    split <;> simp [reads, reads_append, ih]

theorem coreCalls_encodeLoop (c : Collab) (ts : List Obj) (n : Nat) (res : List Bytes)
    (err : Option GoError) : coreCalls (encodeLoop c ts n res err).2.2 = [] := by
  induction ts generalizing n res err with
  | nil => rfl
  | cons t ts ih =>
    simp only [encodeLoop]
    split <;> simp [coreCalls, coreCalls_append, ih]

theorem sunk_captureResponse (resp : Option Response) : sunk (captureResponse resp).2 = [] := by
  unfold captureResponse
  split
  · rfl
  · split
    · rfl
    · split <;> simp [sunk]

theorem coreCalls_captureResponse (resp : Option Response) :
    coreCalls (captureResponse resp).2 = [] := by
  unfold captureResponse
  split
  · rfl
  · split
    · rfl
    · split <;> simp [coreCalls]

theorem reads_captureResponse (resp : Option Response) :
    reads (captureResponse resp).2 = (resp.bind (fun rs => rs.Body)).toList := by
  unfold captureResponse
  cases resp with
  | none => rfl
  | some rs =>
    cases hb : rs.Body with
    | none => simp [reads, hb]
    | some b =>
      simp only [hb]
      split <;> simp [reads, hb]

theorem sunk_streamingGate (c : Collab) (k : Context) : sunk (streamingGate c k).2 = [] := by
  unfold streamingGate
  split <;> simp [sunk]

theorem reads_streamingGate (c : Collab) (k : Context) : reads (streamingGate c k).2 = [] := by
  unfold streamingGate
  split <;> simp [reads]

theorem coreCalls_streamingGate (c : Collab) (k : Context) :
    coreCalls (streamingGate c k).2 = [] := by
  unfold streamingGate
  split <;> simp [coreCalls]

/-- In RECORD mode, when the request body is read without error, `RoundTrip` is the
RECORD arm on the forwarded request. -/
theorem RoundTrip_eq_recordMode (c : Collab) (i : Interceptor) (h : Heap) (r : Request)
    (p : CtxPtr) (hres : r.ctx = some p ∨ (r.ctx = none ∧ i.kctx = some p))
    (hmode : (h p).Mode = Mode.MODE_RECORD) (hread : (readRequestBody r).2.1 = none) :
    RoundTrip c i h r =
      recordMode c i h p (forwarded c i r) (readRequestBody r).1 (mkMeta c (forwarded c i r))
        (readRequestBody r).2.2 := by
  have hp : passthrough c i h r = false :=
    passthrough_not_off c i h r p hres (by rw [hmode]; decide)
  rw [RoundTrip_eq_dispatch c i h r hp hread]
  unfold dispatch
  simp only [forwarded_ctx c i r p hres, GetState, hmode]

/-- The RECORD arm when the response is captured and the record goes to the sink. -/
theorem recordMode_streaming (c : Collab) (i : Interceptor) (h : Heap) (p : CtxPtr)
    (r : Request) (a : Bytes) (m : Meta) (tr : List Event) (cap : RespCapture)
    (hcap : (captureResponse (i.core r).1).1 = .ok cap)
    (hgate : (streamingGate c (h p)).1 = true) :
    recordMode c i h p r a m tr =
      recordStreaming c h r m (httpMock c (h p) m r a (i.core r).2 cap) cap.resp (i.core r).2
        (tr ++ [Event.coreRoundTrip r] ++ (captureResponse (i.core r).1).2 ++
          (streamingGate c (h p)).2) := by
  rcases hc : captureResponse (i.core r).1 with ⟨res, evs⟩
  rw [hc] at hcap
  simp only at hcap
  subst hcap
  simp [recordMode, hc, hgate]

/-- The RECORD arm when the response is captured and the record stays in memory. -/
theorem recordMode_inMemory (c : Collab) (i : Interceptor) (h : Heap) (p : CtxPtr)
    (r : Request) (a : Bytes) (m : Meta) (tr : List Event) (cap : RespCapture)
    (hcap : (captureResponse (i.core r).1).1 = .ok cap)
    (hgate : (streamingGate c (h p)).1 = false) :
    recordMode c i h p r a m tr =
      recordInMemory c h p m (httpMock c (h p) m r a (i.core r).2 cap) cap.resp (i.core r).2
        (tr ++ [Event.coreRoundTrip r] ++ (captureResponse (i.core r).1).2 ++
          (streamingGate c (h p)).2) := by
  rcases hc : captureResponse (i.core r).1 with ⟨res, evs⟩
  rw [hc] at hcap
  simp only at hcap
  subst hcap
  simp [recordMode, hc, hgate]

/-- The RECORD arm when the read of the response body fails. -/
theorem recordMode_capture_error (c : Collab) (i : Interceptor) (h : Heap) (p : CtxPtr)
    (r : Request) (a : Bytes) (m : Meta) (tr : List Event) (e : GoError)
    (hcap : (captureResponse (i.core r).1).1 = .error e) :
    recordMode c i h p r a m tr =
      ⟨Ret.returned none (some e), h,
        tr ++ [Event.coreRoundTrip r] ++ (captureResponse (i.core r).1).2⟩ := by
  rcases hc : captureResponse (i.core r).1 with ⟨res, evs⟩
  rw [hc] at hcap
  simp only at hcap
  subst hcap
  simp [recordMode, hc]

theorem recordStreaming_heap (c : Collab) (h : Heap) (r : Request) (m : Meta) (doc : Mock)
    (resp : Option Response) (err : Option GoError) (tr : List Event) :
    (recordStreaming c h r m doc resp err tr).heap = h := rfl

theorem recordStreaming_ret (c : Collab) (h : Heap) (r : Request) (m : Meta) (doc : Mock)
    (resp : Option Response) (err : Option GoError) (tr : List Event) :
    (recordStreaming c h r m doc resp err tr).ret = Ret.returned resp err := rfl

theorem recordStreaming_sunk (c : Collab) (h : Heap) (r : Request) (m : Meta) (doc : Mock)
    (resp : Option Response) (err : Option GoError) (tr : List Event) :
    sunk (recordStreaming c h r m doc resp err tr).trace = sunk tr ++ [doc] := by
  simp only [recordStreaming]
  cases c.PutMock r.ctx doc <;> simp [sunk_append, sunk]

theorem recordInMemory_sunk (c : Collab) (h : Heap) (p : CtxPtr) (m : Meta) (doc : Mock)
    (resp : Option Response) (err : Option GoError) (tr : List Event) :
    sunk (recordInMemory c h p m doc resp err tr).trace = sunk tr := by
  simp only [recordInMemory]
  cases resp <;> simp [sunk_append, sunk_encodeLoop]

theorem recordInMemory_Mock (c : Collab) (h : Heap) (p : CtxPtr) (m : Meta) (doc : Mock)
    (resp : Option Response) (err : Option GoError) (tr : List Event) :
    ((recordInMemory c h p m doc resp err tr).heap p).Mock = (h p).Mock ++ [doc] := by
  simp only [recordInMemory]
  cases resp <;> simp

theorem recordInMemory_other (c : Collab) (h : Heap) (p : CtxPtr) (m : Meta) (doc : Mock)
    (resp : Option Response) (err : Option GoError) (tr : List Event) (q : CtxPtr)
    (hq : q ≠ p) : (recordInMemory c h p m doc resp err tr).heap q = h q := by
  simp only [recordInMemory]
  cases resp <;> simp [Function.update, hq]

theorem recordStreaming_coreCalls (c : Collab) (h : Heap) (r : Request) (m : Meta)
    (doc : Mock) (resp : Option Response) (err : Option GoError) (tr : List Event) :
    coreCalls (recordStreaming c h r m doc resp err tr).trace = coreCalls tr := by
  simp only [recordStreaming]
  cases c.PutMock r.ctx doc <;> simp [coreCalls_append, coreCalls]

theorem recordStreaming_reads (c : Collab) (h : Heap) (r : Request) (m : Meta)
    (doc : Mock) (resp : Option Response) (err : Option GoError) (tr : List Event) :
    reads (recordStreaming c h r m doc resp err tr).trace = reads tr := by
  simp only [recordStreaming]
  cases c.PutMock r.ctx doc <;> simp [reads_append, reads]

theorem recordInMemory_coreCalls (c : Collab) (h : Heap) (p : CtxPtr) (m : Meta) (doc : Mock)
    (resp : Option Response) (err : Option GoError) (tr : List Event) :
    coreCalls (recordInMemory c h p m doc resp err tr).trace = coreCalls tr := by
  simp only [recordInMemory]
  cases resp <;> simp [coreCalls_append, coreCalls_encodeLoop]

theorem recordInMemory_reads (c : Collab) (h : Heap) (p : CtxPtr) (m : Meta) (doc : Mock)
    (resp : Option Response) (err : Option GoError) (tr : List Event) :
    reads (recordInMemory c h p m doc resp err tr).trace = reads tr := by
  simp only [recordInMemory]
  cases resp <;> simp [reads_append, reads_encodeLoop]

theorem coreCalls_recordMode (c : Collab) (i : Interceptor) (h : Heap) (p : CtxPtr)
    (r : Request) (a : Bytes) (m : Meta) (tr : List Event) :
    coreCalls (recordMode c i h p r a m tr).trace = coreCalls tr ++ [r] := by
  have hcr := coreCalls_captureResponse (i.core r).1
  cases hres : (captureResponse (i.core r).1).1 with
  | error e =>
    rw [recordMode_capture_error c i h p r a m tr e hres]
    simp [coreCalls_append, coreCalls, hcr]
  | ok cap =>
    cases hgate : (streamingGate c (h p)).1 with
    | true =>
      rw [recordMode_streaming c i h p r a m tr cap hres hgate, recordStreaming_coreCalls]
      simp [coreCalls_append, coreCalls, hcr, coreCalls_streamingGate]
    | false =>
      rw [recordMode_inMemory c i h p r a m tr cap hres hgate, recordInMemory_coreCalls]
      simp [coreCalls_append, coreCalls, hcr, coreCalls_streamingGate]

theorem reads_recordMode (c : Collab) (i : Interceptor) (h : Heap) (p : CtxPtr)
    (r : Request) (a : Bytes) (m : Meta) (tr : List Event) :
    reads (recordMode c i h p r a m tr).trace =
      reads tr ++ reads (captureResponse (i.core r).1).2 := by
  cases hres : (captureResponse (i.core r).1).1 with
  | error e =>
    rw [recordMode_capture_error c i h p r a m tr e hres]
    simp [reads_append, reads]
  | ok cap =>
    cases hgate : (streamingGate c (h p)).1 with
    | true =>
      rw [recordMode_streaming c i h p r a m tr cap hres hgate, recordStreaming_reads]
      simp [reads_append, reads, reads_streamingGate]
    | false =>
      rw [recordMode_inMemory c i h p r a m tr cap hres hgate, recordInMemory_reads]
      simp [reads_append, reads, reads_streamingGate]

/-- In the in-memory path the error returned is the one of the last call of `Encode`. -/
theorem recordInMemory_ret_err (c : Collab) (h : Heap) (p : CtxPtr) (m : Meta) (doc : Mock)
    (resp : Option Response) (err : Option GoError) (tr : List Event) :
    ∃ rs, (recordInMemory c h p m doc resp err tr).ret =
      Ret.returned rs
        (c.Encode (Obj.kerr (c.toGobType err (resp.getD Response.zero)).1)
          (c.Encode (Obj.resp (c.toGobType err (resp.getD Response.zero)).2) [[], []] 0).1
          1).2 := by
  simp only [recordInMemory]
  cases resp <;> simp [encodeLoop, List.replicate]

theorem injectContext_Body (c : Collab) (i : Interceptor) (r : Request) :
    (injectContext c i r).Body = r.Body := by
  unfold injectContext
  split <;> rfl

theorem captureResponse_some_body (rs : Response) (b2 : Body) (hb2 : rs.Body = some b2)
    (hok : (ReadAll b2).2 = none) :
    captureResponse (some rs) =
      (.ok ⟨some { rs with Body := some (Body.nopBuffer (ReadAll b2).1) }, (ReadAll b2).1,
          rs.StatusCode, rs.Header⟩, [Event.readAll b2]) := by
  simp [captureResponse, hb2, hok]

theorem captureResponse_nil_body (rs : Response) (hb2 : rs.Body = none) :
    captureResponse (some rs) =
      (.ok ⟨some { rs with Body := some (Body.nopBuffer []) }, [], rs.StatusCode, rs.Header⟩,
        []) := by
  simp [captureResponse, hb2]

theorem RoundTrip_record_coreCalls (c : Collab) (i : Interceptor) (h : Heap) (r : Request)
    (p : CtxPtr) (hres : r.ctx = some p ∨ (r.ctx = none ∧ i.kctx = some p))
    (hmode : (h p).Mode = Mode.MODE_RECORD) (hread : (readRequestBody r).2.1 = none) :
    coreCalls (RoundTrip c i h r).trace = [forwarded c i r] := by
  rw [RoundTrip_eq_recordMode c i h r p hres hmode hread, coreCalls_recordMode,
    coreCalls_readRequestBody]
  rfl

/-- What a RECORD-mode call creates, by the way the response capture and the streaming
gate turn out. -/
theorem record_outcome (c : Collab) (i : Interceptor) (h : Heap) (r : Request) (p : CtxPtr)
    (hres : r.ctx = some p ∨ (r.ctx = none ∧ i.kctx = some p))
    (hmode : (h p).Mode = Mode.MODE_RECORD) (hread : (readRequestBody r).2.1 = none) :
    (∀ cap, (captureResponse (i.core (forwarded c i r)).1).1 = .ok cap →
      created h p (RoundTrip c i h r) = [recordOf c i h r p cap] ∧
      ((streamingGate c (h p)).1 = true →
        sunk (RoundTrip c i h r).trace = [recordOf c i h r p cap] ∧
        (RoundTrip c i h r).heap = h) ∧
      ((streamingGate c (h p)).1 = false →
        sunk (RoundTrip c i h r).trace = [] ∧
        ((RoundTrip c i h r).heap p).Mock = (h p).Mock ++ [recordOf c i h r p cap] ∧
        ∀ q, q ≠ p → (RoundTrip c i h r).heap q = h q)) ∧
    (∀ e, (captureResponse (i.core (forwarded c i r)).1).1 = .error e →
      created h p (RoundTrip c i h r) = [] ∧ (RoundTrip c i h r).heap = h ∧
      (RoundTrip c i h r).ret = Ret.returned none (some e)) := by
  rw [RoundTrip_eq_recordMode c i h r p hres hmode hread]
  constructor
  · intro cap hcap
    cases hgate : (streamingGate c (h p)).1 with
    | true =>
      rw [recordMode_streaming c i h p _ _ _ _ cap hcap hgate]
      simp [created, recordOf, recordStreaming_sunk, recordStreaming_heap, sunk_append,
        sunk_readRequestBody, sunk_captureResponse, sunk_streamingGate, sunk]
    | false =>
      rw [recordMode_inMemory c i h p _ _ _ _ cap hcap hgate]
      simp only [created, recordInMemory_sunk, recordInMemory_Mock]
      refine ⟨?_, ?_, ?_⟩
      · simp [recordOf, sunk_append, sunk_readRequestBody, sunk_captureResponse,
          sunk_streamingGate, sunk]
      · intro hf
        exact absurd hf (by simp)
      · intro _
        refine ⟨?_, rfl, ?_⟩
        · simp [sunk_append, sunk_readRequestBody, sunk_captureResponse,
            sunk_streamingGate, sunk]
        · intro q hq
          exact recordInMemory_other c h p _ _ _ _ _ q hq
  · intro e hcap
    rw [recordMode_capture_error c i h p _ _ _ _ e hcap]
    simp [created, sunk_append, sunk_readRequestBody, sunk_captureResponse, sunk]

/-! ## The claims -/

/-- C1. A request whose resolved mode is OFF (its own context has mode OFF, or it carries no
context and the Interceptor's default context has mode OFF) is answered by the real
transport alone: the result is the pair `core.RoundTrip` returns on the request as it
came in, the only call made is that one (the body is not read, not replaced, no context
is injected), and the contexts are unchanged. -/
theorem C1_off_passes_through (c : Collab) (i : Interceptor) (h : Heap) (r : Request)
    (p : CtxPtr) (hres : r.ctx = some p ∨ (r.ctx = none ∧ i.kctx = some p))
    (hoff : (h p).Mode = Mode.MODE_OFF) :
    RoundTrip c i h r =
      ⟨Ret.returned (i.core r).1 (i.core r).2, h, [Event.coreRoundTrip r]⟩ := by
  unfold RoundTrip
  simp [passthrough_off c i h r p hres hoff]

/-- Witness of C1: `GET /status` with a body, in a context of mode OFF. -/
theorem C1_off_passes_through_witness :
    (heapOf Mode.MODE_OFF false 0).Mode = Mode.MODE_OFF ∧
    RoundTrip quiet okCore (heapOf Mode.MODE_OFF false)
        { getStatus with Body := some (Body.stream [1, 2] none) } =
      ⟨Ret.returned
          (some ⟨200, [("X-Test", ["1"])], some (Body.stream [111, 107] none)⟩) none,
        heapOf Mode.MODE_OFF false,
        [Event.coreRoundTrip { getStatus with Body := some (Body.stream [1, 2] none) }]⟩ :=
  ⟨rfl, C1_off_passes_through quiet okCore (heapOf Mode.MODE_OFF false)
    { getStatus with Body := some (Body.stream [1, 2] none) } 0 (Or.inl rfl) rfl⟩

/-- C3 (as amended). In TEST mode, when `MockRespFromYaml` reports no match (`ok = false`)
the real transport is never called, and the call does not fail with a "no match" error:
the outcome is left to `keploy.ProcessDep`, called on the zero response and the empty
error carrier. If it reports no mock either, `RoundTrip` returns a non-nil response
with a nil error; if it reports a mock, `RoundTrip` returns the error carried by
`res[1]`. -/
theorem C3_test_no_match (c : Collab) (i : Interceptor) (h : Heap) (r : Request)
    (p : CtxPtr) (hres : r.ctx = some p ∨ (r.ctx = none ∧ i.kctx = some p))
    (hmode : (h p).Mode = Mode.MODE_TEST)
    (hread : (readRequestBody r).2.1 = none)
    (hno : (c.MockRespFromYaml h p (forwarded c i r) (readRequestBody r).1
              (mkMeta c (forwarded c i r))).ok = false) :
    coreCalls (RoundTrip c i h r).trace = [] ∧
    (∀ pd : DepResult,
      pd = c.ProcessDep
            (c.MockRespFromYaml h p (forwarded c i r) (readRequestBody r).1
              (mkMeta c (forwarded c i r))).heap
            (some p) (mkMeta c (forwarded c i r))
            (c.toGobType none Response.zero).2 (c.toGobType none Response.zero).1 →
      (pd.mock = false → (RoundTrip c i h r).ret = Ret.returned (some pd.resp) none) ∧
      (pd.mock = true → ∀ x, pd.res[1]? = some (Obj.kerr x) →
        (RoundTrip c i h r).ret = Ret.returned (some pd.resp) x.Err)) := by
  have hp : passthrough c i h r = false :=
    passthrough_not_off c i h r p hres (by rw [hmode]; decide)
  have hctx := forwarded_ctx c i r p hres
  rw [RoundTrip_eq_dispatch c i h r hp hread]
  unfold dispatch
  simp only [hctx, GetState, hmode, hno]
  refine ⟨?_, ?_⟩
  · unfold afterSwitch
    simp only [Bool.false_eq_true, if_false]
    split
    · split <;>
        simp [coreCalls_append, coreCalls_readRequestBody, coreCalls]
    · simp [coreCalls_append, coreCalls_readRequestBody, coreCalls]
  · intro pd hpd
    subst hpd
    unfold afterSwitch
    simp only [hctx]
    constructor
    · intro hm
      simp [hm]
    · intro hm x hx
      simp [hm, hx]

/-- Witness of C3: `GET /status` in TEST mode with collaborators that find nothing. -/
theorem C3_test_no_match_witness :
    coreCalls (RoundTrip quiet okCore (heapOf Mode.MODE_TEST false) getStatus).trace = [] ∧
    (∀ pd : DepResult,
      pd = quiet.ProcessDep
            (quiet.MockRespFromYaml (heapOf Mode.MODE_TEST false) 0
              (forwarded quiet okCore getStatus) (readRequestBody getStatus).1
              (mkMeta quiet (forwarded quiet okCore getStatus))).heap
            (some 0) (mkMeta quiet (forwarded quiet okCore getStatus))
            (quiet.toGobType none Response.zero).2 (quiet.toGobType none Response.zero).1 →
      (pd.mock = false →
        (RoundTrip quiet okCore (heapOf Mode.MODE_TEST false) getStatus).ret =
          Ret.returned (some pd.resp) none) ∧
      (pd.mock = true → ∀ x, pd.res[1]? = some (Obj.kerr x) →
        (RoundTrip quiet okCore (heapOf Mode.MODE_TEST false) getStatus).ret =
          Ret.returned (some pd.resp) x.Err)) :=
  C3_test_no_match quiet okCore (heapOf Mode.MODE_TEST false) getStatus 0 (Or.inl rfl) rfl
    rfl rfl

/-- Counterexample to C3 as stated: in TEST mode, with `MockRespFromYaml` reporting no
match, `RoundTrip` returns the zero response and a nil error. -/
theorem C3_counterexample :
    (heapOf Mode.MODE_TEST false 0).Mode = Mode.MODE_TEST ∧
    (quiet.MockRespFromYaml (heapOf Mode.MODE_TEST false) 0
        (forwarded quiet okCore getStatus) (readRequestBody getStatus).1
        (mkMeta quiet (forwarded quiet okCore getStatus))).ok = false ∧
    (RoundTrip quiet okCore (heapOf Mode.MODE_TEST false) getStatus).ret =
      Ret.returned (some Response.zero) none := by
  decide

/-- C4 (as amended). For every request whose resolved context mode is none of OFF, RECORD and
TEST, `RoundTrip` returns a nil response with a non-nil error, never calls the real
transport and leaves every context as it was; the error is the invalid-mode error when
the request body is absent or read without error, and the error of that read when it
fails. -/
theorem C4_invalid_mode (c : Collab) (i : Interceptor) (h : Heap) (r : Request)
    (p : CtxPtr) (hres : r.ctx = some p ∨ (r.ctx = none ∧ i.kctx = some p))
    (hoff : (h p).Mode ≠ Mode.MODE_OFF) (hrec : (h p).Mode ≠ Mode.MODE_RECORD)
    (htest : (h p).Mode ≠ Mode.MODE_TEST) :
    (∃ e, (RoundTrip c i h r).ret = Ret.returned none (some e)) ∧
    coreCalls (RoundTrip c i h r).trace = [] ∧
    (RoundTrip c i h r).heap = h ∧
    ((readRequestBody r).2.1 = none →
      (RoundTrip c i h r).ret = Ret.returned none (some invalidModeErr)) ∧
    (∀ e, (readRequestBody r).2.1 = some e →
      (RoundTrip c i h r).ret = Ret.returned none (some e)) := by
  have hp : passthrough c i h r = false := passthrough_not_off c i h r p hres hoff
  have hctx := forwarded_ctx c i r p hres
  cases hread : (readRequestBody r).2.1 with
  | some e =>
    rw [RoundTrip_read_error c i h r e hp hread]
    simp [coreCalls_append, coreCalls_readRequestBody, coreCalls]
  | none =>
    rw [RoundTrip_eq_dispatch c i h r hp hread]
    unfold dispatch
    simp only [hctx, GetState]
    cases hm : (h p).Mode with
    | MODE_OFF => exact absurd hm hoff
    | MODE_RECORD => exact absurd hm hrec
    | MODE_TEST => exact absurd hm htest
    | other tag => simp [coreCalls_readRequestBody, invalidModeErr]

/-- Witness of C4: `GET /status` in a context whose mode is the unknown value `replay`. -/
theorem C4_invalid_mode_witness :
    (heapOf (Mode.other "replay") false 0).Mode ≠ Mode.MODE_OFF ∧
    (RoundTrip quiet okCore (heapOf (Mode.other "replay") false) getStatus).ret =
      Ret.returned none (some invalidModeErr) :=
  ⟨by decide,
    (C4_invalid_mode quiet okCore (heapOf (Mode.other "replay") false) getStatus 0
      (Or.inl rfl) (by decide) (by decide) (by decide)).2.2.2.1 rfl⟩

/-- Counterexample to C4 as stated: in a context of unknown mode, a request whose body
fails to be read gets the error of the read, not the invalid-mode error. -/
theorem C4_counterexample :
    (heapOf (Mode.other "replay") false 0).Mode = Mode.other "replay" ∧
    (RoundTrip quiet okCore (heapOf (Mode.other "replay") false)
        { getStatus with Body := some (Body.stream [1] (some ⟨"unexpected EOF"⟩)) }).ret =
      Ret.returned none (some ⟨"unexpected EOF"⟩) ∧
    (⟨"unexpected EOF"⟩ : GoError) ≠ invalidModeErr := by
  decide

/-- C6 (as amended). For every call handled in RECORD mode in which the request body and
the response body are absent or read without error, exactly one record is created. When
the streaming sink is used it is handed to the sink exactly once and no context
changes; otherwise it is appended exactly once to the record list of the context, which
becomes the list before the call followed by that entry, no other context changing.
When the read of the response body fails, no record is created, no context changes and
the call returns a nil response with the error of that read. -/
theorem C6_one_record (c : Collab) (i : Interceptor) (h : Heap) (r : Request) (p : CtxPtr)
    (hres : r.ctx = some p ∨ (r.ctx = none ∧ i.kctx = some p))
    (hmode : (h p).Mode = Mode.MODE_RECORD) (hread : (readRequestBody r).2.1 = none) :
    (∀ cap, (captureResponse (i.core (forwarded c i r)).1).1 = .ok cap →
      created h p (RoundTrip c i h r) = [recordOf c i h r p cap] ∧
      ((streamingGate c (h p)).1 = true →
        sunk (RoundTrip c i h r).trace = [recordOf c i h r p cap] ∧
        (RoundTrip c i h r).heap = h) ∧
      ((streamingGate c (h p)).1 = false →
        sunk (RoundTrip c i h r).trace = [] ∧
        ((RoundTrip c i h r).heap p).Mock = (h p).Mock ++ [recordOf c i h r p cap] ∧
        ∀ q, q ≠ p → (RoundTrip c i h r).heap q = h q)) ∧
    (∀ e, (captureResponse (i.core (forwarded c i r)).1).1 = .error e →
      created h p (RoundTrip c i h r) = [] ∧ (RoundTrip c i h r).heap = h ∧
      (RoundTrip c i h r).ret = Ret.returned none (some e)) :=
  record_outcome c i h r p hres hmode hread

/-- Witness of C6: `GET /status` recorded in memory; the one record is that of the
spec's example scenario. -/
theorem C6_one_record_witness :
    (heapOf Mode.MODE_RECORD false 0).Mode = Mode.MODE_RECORD ∧
    created (heapOf Mode.MODE_RECORD false) 0
        (RoundTrip quiet okCore (heapOf Mode.MODE_RECORD false) getStatus) =
      [recordOf quiet okCore (heapOf Mode.MODE_RECORD false) getStatus 0 okCapture] :=
  ⟨rfl, ((C6_one_record quiet okCore (heapOf Mode.MODE_RECORD false) getStatus 0 (Or.inl rfl)
    rfl rfl).1 okCapture rfl).1⟩

/-- Counterexample to C6 as stated: a call handled in RECORD mode (the real transport is
called) whose response body breaks while read creates no record. -/
theorem C6_counterexample :
    (heapOf Mode.MODE_RECORD false 0).Mode = Mode.MODE_RECORD ∧
    coreCalls (RoundTrip quiet brokenBodyCore (heapOf Mode.MODE_RECORD false) getStatus).trace =
      [{ getStatus with Body := some (Body.nopBuffer []) }] ∧
    created (heapOf Mode.MODE_RECORD false) 0
        (RoundTrip quiet brokenBodyCore (heapOf Mode.MODE_RECORD false) getStatus) = [] ∧
    (RoundTrip quiet brokenBodyCore (heapOf Mode.MODE_RECORD false) getStatus).ret =
      Ret.returned none (some ⟨"unexpected EOF"⟩) := by
  decide

/-- C9 (as amended). In a RECORD-mode call in which streaming delivery is attempted (remote
collector available, `FileExport` set, test identifier unique) and `PutMock` returns
false, `RoundTrip` does not fall back to the context: the record went to the sink once,
no context changes (nothing is appended to the record list), nothing is printed, and the
call returns the response and the error of the real transport, so it does not fail
because of the delivery failure. -/
theorem C9_delivery_failure (c : Collab) (i : Interceptor) (h : Heap) (r : Request)
    (p : CtxPtr) (hres : r.ctx = some p ∨ (r.ctx = none ∧ i.kctx = some p))
    (hmode : (h p).Mode = Mode.MODE_RECORD) (hread : (readRequestBody r).2.1 = none)
    (hclient : c.grpcClient = true) (hfile : (h p).FileExport = true)
    (huniq : c.Unique (h p).TestID = true) (cap : RespCapture)
    (hcap : (captureResponse (i.core (forwarded c i r)).1).1 = .ok cap)
    (hput : c.PutMock (some p) (recordOf c i h r p cap) = false) :
    RoundTrip c i h r =
      ⟨Ret.returned cap.resp (i.core (forwarded c i r)).2, h,
        (readRequestBody r).2.2 ++ [Event.coreRoundTrip (forwarded c i r)] ++
          (captureResponse (i.core (forwarded c i r)).1).2 ++
          [Event.unique (h p).TestID, Event.putMock (some p) (recordOf c i h r p cap)]⟩ := by
  have hgate : (streamingGate c (h p)).1 = true := by
    simp [streamingGate, hclient, hfile, huniq]
  have hevs : (streamingGate c (h p)).2 = [Event.unique (h p).TestID] := by
    simp [streamingGate, hclient, hfile]
  rw [RoundTrip_eq_recordMode c i h r p hres hmode hread,
    recordMode_streaming c i h p _ _ _ _ cap hcap hgate]
  unfold recordOf at hput
  simp [recordStreaming, forwarded_ctx c i r p hres, hput, hevs, recordOf]

/-- Witness of C9: `GET /status` with a sink that reports `delivered = false`. -/
theorem C9_delivery_failure_witness :
    sinkDown.PutMock (some 0)
        (recordOf sinkDown okCore (heapOf Mode.MODE_RECORD true) getStatus 0 okCapture) = false ∧
    RoundTrip sinkDown okCore (heapOf Mode.MODE_RECORD true) getStatus =
      ⟨Ret.returned okCapture.resp (okCore.core (forwarded sinkDown okCore getStatus)).2,
        heapOf Mode.MODE_RECORD true,
        (readRequestBody getStatus).2.2 ++
          [Event.coreRoundTrip (forwarded sinkDown okCore getStatus)] ++
          (captureResponse (okCore.core (forwarded sinkDown okCore getStatus)).1).2 ++
          [Event.unique (heapOf Mode.MODE_RECORD true 0).TestID,
            Event.putMock (some 0)
              (recordOf sinkDown okCore (heapOf Mode.MODE_RECORD true) getStatus 0 okCapture)]⟩ :=
  ⟨rfl, C9_delivery_failure sinkDown okCore (heapOf Mode.MODE_RECORD true) getStatus 0
    (Or.inl rfl) rfl rfl rfl rfl rfl okCapture rfl rfl⟩

/-- Counterexample to C9 as stated: streaming delivery is attempted, `PutMock` returns
false, and after the call the record list of the context is still empty. -/
theorem C9_counterexample :
    sinkDown.grpcClient = true ∧
    (heapOf Mode.MODE_RECORD true 0).FileExport = true ∧
    sinkDown.Unique (heapOf Mode.MODE_RECORD true 0).TestID = true ∧
    sinkDown.PutMock (some 0)
        (recordOf sinkDown okCore (heapOf Mode.MODE_RECORD true) getStatus 0 okCapture) = false ∧
    sunk (RoundTrip sinkDown okCore (heapOf Mode.MODE_RECORD true) getStatus).trace =
      [recordOf sinkDown okCore (heapOf Mode.MODE_RECORD true) getStatus 0 okCapture] ∧
    ((RoundTrip sinkDown okCore (heapOf Mode.MODE_RECORD true) getStatus).heap 0).Mock = [] ∧
    ((RoundTrip sinkDown okCore (heapOf Mode.MODE_RECORD true) getStatus).heap 0).Deps = [] := by
  decide

/-- C5 (as amended). In every RECORD-mode call that builds a record, the record carries
exactly one object, of type "error", whose data is the text of the error the real
transport returned, and the empty string when it returned none. The data is therefore
empty if and only if the transport returned no error or an error whose text is empty. -/
theorem C5_error_object (c : Collab) (i : Interceptor) (h : Heap) (r : Request) (p : CtxPtr)
    (hres : r.ctx = some p ∨ (r.ctx = none ∧ i.kctx = some p))
    (hmode : (h p).Mode = Mode.MODE_RECORD) (hread : (readRequestBody r).2.1 = none)
    (cap : RespCapture)
    (hcap : (captureResponse (i.core (forwarded c i r)).1).1 = .ok cap) :
    ∃ doc data,
      created h p (RoundTrip c i h r) = [doc] ∧
      doc.Spec.Objects = [⟨"error", data⟩] ∧
      data = stringBytes (errStr (i.core (forwarded c i r)).2) ∧
      ((i.core (forwarded c i r)).2 = none → data = []) ∧
      (data = [] ↔
        ((i.core (forwarded c i r)).2 = none ∨
          ∃ e, (i.core (forwarded c i r)).2 = some e ∧ e.msg = "")) := by
  refine ⟨recordOf c i h r p cap, stringBytes (errStr (i.core (forwarded c i r)).2),
    ((record_outcome c i h r p hres hmode hread).1 cap hcap).1, rfl, rfl, ?_, ?_⟩
  · intro hnone
    rw [hnone]
    rfl
  · rw [stringBytes_eq_nil]
    cases (i.core (forwarded c i r)).2 with
    | none => simp [errStr]
    | some e => simp [errStr]

/-- Witness of C5: `GET /status` answered without error; the error object is empty. -/
theorem C5_error_object_witness :
    (heapOf Mode.MODE_RECORD false 0).Mode = Mode.MODE_RECORD ∧
    ∃ doc data,
      created (heapOf Mode.MODE_RECORD false) 0
          (RoundTrip quiet okCore (heapOf Mode.MODE_RECORD false) getStatus) = [doc] ∧
      doc.Spec.Objects = [⟨"error", data⟩] ∧
      data = stringBytes (errStr (okCore.core (forwarded quiet okCore getStatus)).2) ∧
      ((okCore.core (forwarded quiet okCore getStatus)).2 = none → data = []) ∧
      (data = [] ↔
        ((okCore.core (forwarded quiet okCore getStatus)).2 = none ∨
          ∃ e, (okCore.core (forwarded quiet okCore getStatus)).2 = some e ∧ e.msg = "")) :=
  ⟨rfl, C5_error_object quiet okCore (heapOf Mode.MODE_RECORD false) getStatus 0 (Or.inl rfl)
    rfl rfl okCapture rfl⟩

/-- Counterexample to C5 as stated: the real transport returns a non-nil error whose text
is empty, and the data of the error object of the record is empty. -/
theorem C5_counterexample :
    (heapOf Mode.MODE_RECORD false 0).Mode = Mode.MODE_RECORD ∧
    (emptyErrCore.core (forwarded quiet emptyErrCore getStatus)).2 = some ⟨""⟩ ∧
    (created (heapOf Mode.MODE_RECORD false) 0
        (RoundTrip quiet emptyErrCore (heapOf Mode.MODE_RECORD false) getStatus)).map
      (fun doc => doc.Spec.Objects) = [[⟨"error", []⟩]] := by
  decide

/-- C8 (evaluation at the failing inputs). In the in-memory RECORD path the error returned
is the one of the last `keploy.Encode`, not the one of the real transport. First call:
the transport fails with `connection refused` and the codec succeeds; `RoundTrip`
returns a nil response and a nil error. Second call: the transport succeeds and a
codec that fails on every value makes `RoundTrip` return the error of its last call. -/
theorem C8_error_overwritten :
    refusedCore.core (forwarded quiet refusedCore getStatus) =
      (none, some ⟨"connection refused"⟩) ∧
    (RoundTrip quiet refusedCore (heapOf Mode.MODE_RECORD false) getStatus).ret =
      Ret.returned none none ∧
    (okCore.core (forwarded codecDown okCore getStatus)).2 = none ∧
    (RoundTrip codecDown okCore (heapOf Mode.MODE_RECORD false) getStatus).ret =
      Ret.returned okCapture.resp (some ⟨"gob: type not registered"⟩) := by
  decide

/-- The body put in place of a request body `b` that was read: the sentinel
`http.NoBody` is kept (line 133), any other body is replaced by
`io.NopCloser(bytes.NewBuffer(reqBody))` (line 134). -/
theorem forwarded_Body_some (c : Collab) (i : Interceptor) (r : Request) (b : Body)
    (hb : r.Body = some b) :
    (forwarded c i r).Body =
      some (if b = Body.noBody then Body.noBody else Body.nopBuffer (ReadAll b).1) := by
  have hbytes : (readRequestBody r).1 = (ReadAll b).1 := by simp [readRequestBody, hb]
  unfold forwarded
  rw [injectContext_Body, hbytes]
  unfold resetRequestBody
  by_cases hnb : b = Body.noBody
  · subst hnb
    simp [hb]
  · simp [hb, hnb]

/-- C2. In RECORD mode, with a request body that is nil or read without error: every
non-nil body stream is read in full exactly once (the reads of the call are the request
body, then the response body, each when it is not nil). A request body that was read is
replaced by the fresh stream `io.NopCloser(bytes.NewBuffer(reqBody))` over the bytes read
(the sentinel `http.NoBody`, which holds no bytes, is kept); this is the body the real
transport receives, its full read gives the request bytes again, and every record built
holds exactly those bytes in `Req.BodyData`. When the response body is not nil and its
read succeeds, the response body is replaced by the fresh stream
`ioutil.NopCloser(bytes.NewBuffer(respBody))` over the bytes read, whose full read gives
them again; the record built holds exactly these bytes in `Res.BodyData`; the response
with the fresh body is the one returned when the record is streamed, and the one handed
to `toGobType` otherwise. -/
theorem C2_capture_restore (c : Collab) (i : Interceptor) (h : Heap) (r : Request)
    (p : CtxPtr) (hres : r.ctx = some p ∨ (r.ctx = none ∧ i.kctx = some p))
    (hmode : (h p).Mode = Mode.MODE_RECORD) (hread : (readRequestBody r).2.1 = none) :
    reads (RoundTrip c i h r).trace =
      r.Body.toList ++ ((i.core (forwarded c i r)).1.bind (fun rs => rs.Body)).toList ∧
    coreCalls (RoundTrip c i h r).trace = [forwarded c i r] ∧
    (∀ b, r.Body = some b →
      (forwarded c i r).Body =
        some (if b = Body.noBody then Body.noBody else Body.nopBuffer (ReadAll b).1) ∧
      ReadAll (if b = Body.noBody then Body.noBody else Body.nopBuffer (ReadAll b).1) =
        ((ReadAll b).1, none) ∧
      ∀ doc, doc ∈ created h p (RoundTrip c i h r) →
        doc.Spec.Req.BodyData = (ReadAll b).1) ∧
    (∀ rs b2, (i.core (forwarded c i r)).1 = some rs → rs.Body = some b2 →
      (ReadAll b2).2 = none →
      captureResponse (i.core (forwarded c i r)).1 =
        (.ok ⟨some { rs with Body := some (Body.nopBuffer (ReadAll b2).1) }, (ReadAll b2).1,
            rs.StatusCode, rs.Header⟩, [Event.readAll b2]) ∧
      ReadAll (Body.nopBuffer (ReadAll b2).1) = ((ReadAll b2).1, none) ∧
      (∃ doc, created h p (RoundTrip c i h r) = [doc] ∧
        doc.Spec.Req.BodyData = (readRequestBody r).1 ∧
        doc.Spec.Res.BodyData = (ReadAll b2).1) ∧
      ((streamingGate c (h p)).1 = true →
        (RoundTrip c i h r).ret =
          Ret.returned (some { rs with Body := some (Body.nopBuffer (ReadAll b2).1) })
            (i.core (forwarded c i r)).2) ∧
      ((streamingGate c (h p)).1 = false →
        ∃ e, (RoundTrip c i h r).ret =
          Ret.returned
            (some (c.toGobType (i.core (forwarded c i r)).2
              { rs with Body := some (Body.nopBuffer (ReadAll b2).1) }).2)
            e)) := by
  refine ⟨?_, RoundTrip_record_coreCalls c i h r p hres hmode hread, ?_, ?_⟩
  · rw [RoundTrip_eq_recordMode c i h r p hres hmode hread, reads_recordMode,
      reads_readRequestBody, reads_captureResponse]
  · intro b hb
    have hbytes : (readRequestBody r).1 = (ReadAll b).1 := by simp [readRequestBody, hb]
    refine ⟨forwarded_Body_some c i r b hb, ?_, ?_⟩
    · by_cases hnb : b = Body.noBody
      · subst hnb
        simp [ReadAll]
      · simp [hnb, ReadAll]
    · intro doc hdoc
      cases hcap : (captureResponse (i.core (forwarded c i r)).1).1 with
      | error e =>
        rw [((record_outcome c i h r p hres hmode hread).2 e hcap).1] at hdoc
        simp at hdoc
      | ok cap =>
        rw [((record_outcome c i h r p hres hmode hread).1 cap hcap).1] at hdoc
        simp at hdoc
        subst hdoc
        exact hbytes
  · intro rs b2 hrs hb2 hb2ok
    have hcap := captureResponse_some_body rs b2 hb2 hb2ok
    have hcap1 := congrArg Prod.fst hcap
    simp only at hcap1
    rw [← hrs] at hcap hcap1
    refine ⟨hcap, rfl,
      ⟨_, ((record_outcome c i h r p hres hmode hread).1 _ hcap1).1, rfl, rfl⟩, ?_, ?_⟩
    · intro hgate
      rw [RoundTrip_eq_recordMode c i h r p hres hmode hread,
        recordMode_streaming c i h p _ _ _ _ _ hcap1 hgate]
      rfl
    · intro hgate
      rw [RoundTrip_eq_recordMode c i h r p hres hmode hread,
        recordMode_inMemory c i h p _ _ _ _ _ hcap1 hgate]
      simp [recordInMemory]

/-- Witness of C2: a request with the live body `hi`, answered with the live body `ok`
and streamed to the sink. The two streams are the reads of the call, the transport gets
the fresh buffer over `hi`, and the response returned carries the fresh buffer over
`ok`. -/
theorem C2_capture_restore_witness :
    (heapOf Mode.MODE_RECORD true 0).Mode = Mode.MODE_RECORD ∧
    (readRequestBody { getStatus with Body := some (Body.stream [104, 105] none) }).2.1 = none ∧
    reads (RoundTrip sinkDown okCore (heapOf Mode.MODE_RECORD true)
        { getStatus with Body := some (Body.stream [104, 105] none) }).trace =
      [Body.stream [104, 105] none, Body.stream [111, 107] none] ∧
    coreCalls (RoundTrip sinkDown okCore (heapOf Mode.MODE_RECORD true)
        { getStatus with Body := some (Body.stream [104, 105] none) }).trace =
      [{ getStatus with Body := some (Body.nopBuffer [104, 105]) }] ∧
    (RoundTrip sinkDown okCore (heapOf Mode.MODE_RECORD true)
        { getStatus with Body := some (Body.stream [104, 105] none) }).ret =
      Ret.returned (some ⟨200, [("X-Test", ["1"])], some (Body.nopBuffer [111, 107])⟩) none :=
  ⟨rfl, rfl,
    (C2_capture_restore sinkDown okCore (heapOf Mode.MODE_RECORD true)
      { getStatus with Body := some (Body.stream [104, 105] none) } 0 (Or.inl rfl) rfl rfl).1,
    (C2_capture_restore sinkDown okCore (heapOf Mode.MODE_RECORD true)
      { getStatus with Body := some (Body.stream [104, 105] none) } 0 (Or.inl rfl) rfl rfl).2.1,
    ((C2_capture_restore sinkDown okCore (heapOf Mode.MODE_RECORD true)
      { getStatus with Body := some (Body.stream [104, 105] none) } 0 (Or.inl rfl) rfl
      rfl).2.2.2 ⟨200, [("X-Test", ["1"])], some (Body.stream [111, 107] none)⟩
      (Body.stream [111, 107] none) rfl rfl rfl).2.2.2.1 rfl⟩

/-- C7 (as amended). In RECORD mode a nil body gives an empty captured buffer, and the nil
body is replaced by a fresh empty in-memory stream: the request reaches the real
transport with the body `io.NopCloser(bytes.NewBuffer(nil))`, and a response whose body
is nil is left with such a body too. Only a request whose body is the sentinel
`http.NoBody` keeps its body. -/
theorem C7_nil_body (c : Collab) (i : Interceptor) (h : Heap) (r : Request) (p : CtxPtr)
    (hres : r.ctx = some p ∨ (r.ctx = none ∧ i.kctx = some p))
    (hmode : (h p).Mode = Mode.MODE_RECORD) (hread : (readRequestBody r).2.1 = none) :
    (r.Body = none →
      (readRequestBody r).1 = [] ∧
      (forwarded c i r).Body = some (Body.nopBuffer []) ∧
      coreCalls (RoundTrip c i h r).trace = [forwarded c i r] ∧
      ∀ cap, (recordOf c i h r p cap).Spec.Req.BodyData = []) ∧
    (r.Body = some Body.noBody → (forwarded c i r).Body = some Body.noBody) ∧
    (∀ rs, (i.core (forwarded c i r)).1 = some rs → rs.Body = none →
      ∃ cap, captureResponse (i.core (forwarded c i r)).1 = (.ok cap, []) ∧
        cap.respBody = [] ∧
        cap.resp = some { rs with Body := some (Body.nopBuffer []) } ∧
        created h p (RoundTrip c i h r) = [recordOf c i h r p cap] ∧
        (recordOf c i h r p cap).Spec.Res.BodyData = [] ∧
        ((streamingGate c (h p)).1 = true →
          (RoundTrip c i h r).ret =
            Ret.returned (some { rs with Body := some (Body.nopBuffer []) })
              (i.core (forwarded c i r)).2)) := by
  refine ⟨?_, ?_, ?_⟩
  · intro hnil
    have hbytes : (readRequestBody r).1 = [] := by simp [readRequestBody, hnil]
    refine ⟨hbytes, ?_, RoundTrip_record_coreCalls c i h r p hres hmode hread, ?_⟩
    · unfold forwarded
      rw [injectContext_Body, hbytes]
      simp [resetRequestBody, hnil]
    · intro cap
      exact hbytes
  · intro hnb
    unfold forwarded
    rw [injectContext_Body]
    simp [resetRequestBody, hnb]
  · intro rs hrs hnil
    have hcap := captureResponse_nil_body rs hnil
    have hcap1 := congrArg Prod.fst hcap
    simp only at hcap1
    rw [← hrs] at hcap hcap1
    refine ⟨_, hcap, rfl, rfl, ((record_outcome c i h r p hres hmode hread).1 _ hcap1).1,
      rfl, ?_⟩
    intro hgate
    rw [RoundTrip_eq_recordMode c i h r p hres hmode hread,
      recordMode_streaming c i h p _ _ _ _ _ hcap1 hgate]
    rfl

/-- Witness of C7: `GET /status` has a nil body; the transport gets an empty stream. -/
theorem C7_nil_body_witness :
    (heapOf Mode.MODE_RECORD false 0).Mode = Mode.MODE_RECORD ∧
    getStatus.Body = none ∧
    (forwarded quiet nilBodyCore getStatus).Body = some (Body.nopBuffer []) :=
  ⟨rfl, rfl, ((C7_nil_body quiet nilBodyCore (heapOf Mode.MODE_RECORD false) getStatus 0
    (Or.inl rfl) rfl rfl).1 rfl).2.1⟩

/-- Counterexample to C7 as stated: a request with a nil body reaches the real transport
with a non-nil (empty) body, and a response with a nil body is returned with a non-nil
(empty) body. -/
theorem C7_counterexample :
    getStatus.Body = none ∧
    (nilBodyCore.core (forwarded sinkDown nilBodyCore getStatus)).1 = some ⟨204, [], none⟩ ∧
    coreCalls (RoundTrip sinkDown nilBodyCore (heapOf Mode.MODE_RECORD true) getStatus).trace =
      [{ getStatus with Body := some (Body.nopBuffer []) }] ∧
    (RoundTrip sinkDown nilBodyCore (heapOf Mode.MODE_RECORD true) getStatus).ret =
      Ret.returned (some ⟨204, [], some (Body.nopBuffer [])⟩) none := by
  decide

/-- The memory after `MarshalBinary` of a wrapped body and `UnmarshalBinary` of the bytes
it returned: the bytes read, and a second array holding a copy of them. -/
theorem unmarshal_marshal_mem (m : Mem) (rc target : ReadCloser) (body : Body)
    (hbody : rc.Body = some body) :
    (UnmarshalBinary (MarshalBinary m rc).1 target (MarshalBinary m rc).2.2.1).1 =
      m ++ [(ReadAll body).1] ++ [(ReadAll body).1] := by
  simp [UnmarshalBinary, MarshalBinary, hbody, make, copy, Mem.write, Mem.read, len,
    List.getD_eq_getElem?_getD, List.getElem?_append_right, List.getElem_append_right]

/-- C10 (as amended). For every `ReadCloser` that wraps a `Body` stream whose read
succeeds, `MarshalBinary` returns the bytes of that stream without error, and
`UnmarshalBinary` applied to them gives a `ReadCloser` whose full read returns exactly
those bytes; they are held in an array other than the one of the encoded slice, so that
writing into the encoded slice afterwards does not change what is read. For a
`ReadCloser` holding only an in-memory `Reader` (`Body` nil), `MarshalBinary` returns nil
and leaves the value as it is, and decoding gives an empty stream. -/
theorem C10_decode_encode (m : Mem) (rc target : ReadCloser) :
    (∀ body, rc.Body = some body → (ReadAll body).2 = none →
      (MarshalBinary m rc).2.2.2 = none ∧
      (MarshalBinary m rc).1.read (MarshalBinary m rc).2.2.1 = (ReadAll body).1 ∧
      (UnmarshalBinary (MarshalBinary m rc).1 target (MarshalBinary m rc).2.2.1).2.2 = none ∧
      (UnmarshalBinary (MarshalBinary m rc).1 target (MarshalBinary m rc).2.2.1).2.1.readAll
          (UnmarshalBinary (MarshalBinary m rc).1 target (MarshalBinary m rc).2.2.1).1 =
        some (ReadAll body).1 ∧
      (∀ k v,
        (UnmarshalBinary (MarshalBinary m rc).1 target (MarshalBinary m rc).2.2.1).2.1.readAll
            (Mem.setIndex
              (UnmarshalBinary (MarshalBinary m rc).1 target (MarshalBinary m rc).2.2.1).1
              (MarshalBinary m rc).2.2.1 k v) =
          some (ReadAll body).1)) ∧
    (rc.Body = none →
      MarshalBinary m rc = (m, rc, none, none) ∧
      (UnmarshalBinary (MarshalBinary m rc).1 target (MarshalBinary m rc).2.2.1).2.1.readAll
          (UnmarshalBinary (MarshalBinary m rc).1 target (MarshalBinary m rc).2.2.1).1 =
        some []) := by
  constructor
  · intro body hbody hok
    have hmem := unmarshal_marshal_mem m rc target body hbody
    refine ⟨?_, ?_, rfl, ?_, ?_⟩
    · simp [MarshalBinary, hbody, hok]
    · simp [MarshalBinary, hbody, Mem.read, List.getD_eq_getElem?_getD]
    · rw [hmem]
      simp [UnmarshalBinary, MarshalBinary, hbody, make, NewReader, ReadCloser.readAll,
        Mem.read, len, List.getD_eq_getElem?_getD, List.getElem?_append_right,
        List.getElem_append_right]
    · intro k v
      rw [hmem]
      simp only [UnmarshalBinary, MarshalBinary, hbody, make, NewReader, ReadCloser.readAll,
        Mem.setIndex, len]
      split
      · simp [Mem.write, Mem.read, List.getD_eq_getElem?_getD, List.getElem?_append_right,
          List.getElem?_set, List.getElem_append_right]
      · simp [Mem.read, List.getD_eq_getElem?_getD, List.getElem?_append_right,
          List.getElem_append_right]
  · intro hnil
    refine ⟨by simp [MarshalBinary, hnil], ?_⟩
    simp [UnmarshalBinary, MarshalBinary, hnil, make, copy, NewReader, ReadCloser.readAll,
      Mem.write, Mem.read, len, List.getD_eq_getElem?_getD, List.getElem?_append_right]

/-- Witness of C10: a `ReadCloser` wrapping a stream of the two bytes `ok`. -/
theorem C10_decode_encode_witness :
    (ReadAll (Body.stream [111, 107] none)).2 = none ∧
    (UnmarshalBinary (MarshalBinary [] ⟨none, some (Body.stream [111, 107] none)⟩).1
          ⟨none, none⟩
          (MarshalBinary [] ⟨none, some (Body.stream [111, 107] none)⟩).2.2.1).2.1.readAll
        (UnmarshalBinary (MarshalBinary [] ⟨none, some (Body.stream [111, 107] none)⟩).1
          ⟨none, none⟩
          (MarshalBinary [] ⟨none, some (Body.stream [111, 107] none)⟩).2.2.1).1 =
      some (ReadAll (Body.stream [111, 107] none)).1 :=
  ⟨rfl, ((C10_decode_encode [] ⟨none, some (Body.stream [111, 107] none)⟩ ⟨none, none⟩).1
    (Body.stream [111, 107] none) rfl rfl).2.2.2.1⟩

/-- Counterexample to C10 as stated: a `ReadCloser` holding the in-memory `Reader` over
the bytes `ok` reads `ok`, `MarshalBinary` returns nil for it, and the decoded value
reads nothing. -/
theorem C10_counterexample :
    ReadCloser.readAll [[111, 107]] ⟨some (NewReader (some ⟨0, 0, 2⟩)), none⟩ =
      some [111, 107] ∧
    (MarshalBinary [[111, 107]] ⟨some (NewReader (some ⟨0, 0, 2⟩)), none⟩).2.2.1 = none ∧
    (UnmarshalBinary
          (MarshalBinary [[111, 107]] ⟨some (NewReader (some ⟨0, 0, 2⟩)), none⟩).1
          ⟨none, none⟩
          (MarshalBinary [[111, 107]] ⟨some (NewReader (some ⟨0, 0, 2⟩)), none⟩).2.2.1).2.1.readAll
        (UnmarshalBinary
          (MarshalBinary [[111, 107]] ⟨some (NewReader (some ⟨0, 0, 2⟩)), none⟩).1
          ⟨none, none⟩
          (MarshalBinary [[111, 107]] ⟨some (NewReader (some ⟨0, 0, 2⟩)), none⟩).2.2.1).1 =
      some [] := by
  decide

end Khttpclient
